import Mathlib

/-!
# hyprlid: lid / monitor state coordinator

A shallow embedding of `src/hyprlid/main.cpp`.  The process-wide globals become the
fields of `State`; every handler is a function from the state before the call to the
state after it together with the ordered list of observable effects (log lines,
notifications and hyprctl requests) the call produced.
-/

namespace Hyprlid

/-! ## Constants -/

/-- The string the debug option is compared with (`kTrue`). -/
def kTrue : String := "true"

/-- Name of the placeholder output the host reports (`kFallbackMonitorName`). -/
def kFallbackMonitorName : String := "FALLBACK"

/-! ## Observable effects -/

/-- Severity passed to `Debug::log`. -/
inductive LogLevel
  | INFO
  | ERR
  deriving DecidableEq, Repr

/-- The four hyprctl requests `updateState` can issue, one constructor per call site
shape of `HyprlandAPI::invokeHyprctlCommand`. -/
inductive Command
  | setDisplayDescriptor (descriptor : String)
  | disableDisplay (name : String)
  | invokeAction (name : String)
  | setDisplayPower (name : String) (powerOn : Bool)
  deriving DecidableEq, Repr

/-- The `(call, args)` pair handed to `invokeHyprctlCommand` for each request. -/
def Command.toHyprctl : Command → String × String
  | .setDisplayDescriptor d => ("keyword", "monitor " ++ d)
  | .disableDisplay n => ("keyword", "monitor " ++ n ++ ", disable")
  | .invokeAction a => ("dispatch", a)
  | .setDisplayPower n true => ("dispatch", "dpms on " ++ n)
  | .setDisplayPower n false => ("dispatch", "dpms off " ++ n)

/-- One observable effect of a handler. -/
inductive Effect
  | log (level : LogLevel) (message : String)
  | notifyInfo (text : String)
  | notifyErr (text : String)
  | hyprctl (c : Command)
  deriving DecidableEq, Repr

/-- The hyprctl requests among a list of effects, in order. -/
def commands : List Effect → List Command
  | [] => []
  | .hyprctl c :: es => c :: commands es
  | .log _ _ :: es => commands es
  | .notifyInfo _ :: es => commands es
  | .notifyErr _ :: es => commands es

/-- The user-visible notifications among a list of effects, in order. -/
def notifications : List Effect → List String
  | [] => []
  | .notifyInfo t :: es => t :: notifications es
  | .notifyErr t :: es => t :: notifications es
  | .log _ _ :: es => notifications es
  | .hyprctl _ :: es => notifications es

/-! ## State -/

/-- Wrap-around of a 32-bit signed integer (`std::atomic_int` arithmetic). -/
def wrapInt32 (x : Int) : Int := (x + 2147483648) % 4294967296 - 2147483648

/-- The globals of the plugin. -/
structure State where
  g_mainMonitorConfig : String
  g_mainMonitorName : String
  g_lockCommand : String
  g_isDebug : Bool
  g_isLidClosed : Bool
  g_secondaryMonitorsCount : Int
  deriving DecidableEq, Repr

/-- The values the globals are initialised with. -/
def State.initial : State :=
  { g_mainMonitorConfig := ""
    g_mainMonitorName := ""
    g_lockCommand := ""
    g_isDebug := false
    g_isLidClosed := false
    g_secondaryMonitorsCount := 0 }

/-! ## Logging -/

/-- Effects of `notifyInfo`. -/
def notifyInfo (text : String) : List Effect := [.notifyInfo text]

/-- Effects of `notifyErr`. -/
def notifyErr (text : String) : List Effect := [.notifyErr text]

/-- Effects of `logInfo`: an INFO log line, and a notification only in debug mode. -/
def logInfo (s : State) (message : String) : List Effect :=
  .log .INFO message :: (if s.g_isDebug then notifyInfo message else [])

/-- Effects of `logErr`: an ERR log line and, always, a notification. -/
def logErr (message : String) : List Effect :=
  .log .ERR message :: notifyErr message

/-! ## String helpers -/

/-- The default character set of `rtrim`: space, `\t`, `\n`, `\r`, `\f`, `\v`. -/
def rtrimChars : List Char := [' ', '\t', '\n', '\r', Char.ofNat 12, Char.ofNat 11]

/-- Model of `std::string::find_last_not_of`: the greatest index whose character is
not in `t`; `none` stands for `npos`. -/
def find_last_not_of : List Char → List Char → Option Nat
  | [], _ => none
  | c :: cs, t =>
    match find_last_not_of cs t with
    | some i => some (i + 1)
    | none => if c ∈ t then none else some 0

/-- Model of `rtrim`: `s.erase(s.find_last_not_of(t) + 1)`; `npos + 1` is `0`. -/
def rtrim (s : List Char) (t : List Char := rtrimChars) : List Char :=
  s.take (match find_last_not_of s t with
    | none => 0
    | some i => i + 1)

/-- Model of `std::getline(ss, str, delim)` on a fresh stream: the characters read
before the first `delim` (all of them when there is none).  The delimiter and the
characters `rtrim` removes are ASCII, so splitting by character and by byte agree. -/
def getline : List Char → Char → List Char
  | [], _ => []
  | c :: cs, delim => if c = delim then [] else c :: getline cs delim

/-! ## Decision procedure -/

/-- Effects of `updateState`; it reads the globals and writes none of them. -/
def updateState (s : State) : List Effect :=
  if s.g_mainMonitorConfig = "" then
    []
  else if s.g_isLidClosed then
    if s.g_secondaryMonitorsCount > 0 then
      logInfo s "Disabling main monitor" ++
        [.hyprctl (.disableDisplay s.g_mainMonitorName)]
    else if s.g_lockCommand ≠ "" then
      logInfo s "Locking session" ++
        [.hyprctl (.setDisplayDescriptor s.g_mainMonitorConfig),
         .hyprctl (.invokeAction s.g_lockCommand),
         .hyprctl (.setDisplayPower s.g_mainMonitorName false)]
    else
      []
  else
    logInfo s "Enabling main monitor" ++
      [.hyprctl (.setDisplayDescriptor s.g_mainMonitorConfig),
       .hyprctl (.setDisplayPower s.g_mainMonitorName true)]

/-! ## Event handlers -/

/-- Handler `monitorAdded`, for a monitor with the given `ID` and `szName`. -/
def monitorAdded (s : State) (id : Int) (szName : String) : State × List Effect :=
  let e := logInfo s ("Monitor[" ++ toString id ++ "] added: [" ++ szName ++ "]")
  if szName ≠ s.g_mainMonitorName ∧ szName ≠ kFallbackMonitorName then
    let s1 := { s with g_secondaryMonitorsCount := wrapInt32 (s.g_secondaryMonitorsCount + 1) }
    if s1.g_secondaryMonitorsCount > 0 then (s1, e ++ updateState s1) else (s1, e)
  else
    (s, e)

/-- Handler `monitorRemoved`, for a monitor with the given `ID` and `szName`. -/
def monitorRemoved (s : State) (id : Int) (szName : String) : State × List Effect :=
  let e := logInfo s ("Monitor[" ++ toString id ++ "] removed: [" ++ szName ++ "]")
  if szName ≠ s.g_mainMonitorName ∧ szName ≠ kFallbackMonitorName then
    let s1 := { s with g_secondaryMonitorsCount := wrapInt32 (s.g_secondaryMonitorsCount - 1) }
    if s1.g_secondaryMonitorsCount < 1 then (s1, e ++ updateState s1) else (s1, e)
  else
    (s, e)

/-- Handler `configReloaded`.  The three arguments are the values behind the
pointers read for `laptop_monitor`, `lock_command` and `debug`; `none` is `nullptr`. -/
def configReloaded (s : State) (mainMonitorConfig lockCommadConfig DEBUG_FLAG : Option String) :
    State × List Effect :=
  match mainMonitorConfig with
  | none => (s, logInfo s "Failed to read laptop_monitor config value")
  | some raw =>
    let (s1, e1) :=
      match lockCommadConfig with
      | some l =>
        let t : State := { s with g_lockCommand := l }
        (t, logInfo t ("Lock command: " ++ l))
      | none => (s, [])
    let s2 : State :=
      match DEBUG_FLAG with
      | some d => { s1 with g_isDebug := decide (d = kTrue) }
      | none => s1
    let s3 : State := { s2 with g_mainMonitorConfig := raw }
    let s4 : State := { s3 with g_mainMonitorName := ⟨rtrim (getline raw.data ',')⟩ }
    (s4, e1 ++ updateState s4 ++
      logInfo s4 ("Main monitor[" ++ s4.g_mainMonitorName ++ "] = " ++ s4.g_mainMonitorConfig))

/-- Dispatcher `lidClosed`. -/
def lidClosed (s : State) : State × List Effect :=
  let s1 := { s with g_isLidClosed := true }
  (s1, logInfo s1 "Lid closed" ++ updateState s1)

/-- Dispatcher `lidOpen`. -/
def lidOpen (s : State) : State × List Effect :=
  let s1 := { s with g_isLidClosed := false }
  (s1, logInfo s1 "Lid opened" ++ updateState s1)

/-! ## Traces of monitor notifications -/

/-- A monitor hotplug notification delivered by the host. -/
inductive MonitorEvent
  | added (id : Int) (szName : String)
  | removed (id : Int) (szName : String)
  deriving DecidableEq, Repr

/-- The state after the handler of one notification has run. -/
def MonitorEvent.handle (s : State) : MonitorEvent → State
  | .added id n => (monitorAdded s id n).1
  | .removed id n => (monitorRemoved s id n).1

/-- The states reached after each notification of a trace, in order. -/
def statesAfter : State → List MonitorEvent → List State
  | _, [] => []
  | s, e :: es => e.handle s :: statesAfter (e.handle s) es

/-- Whether every removal of a monitor that is neither `primary` nor the fallback is
preceded by an addition of such a monitor that no earlier removal has used up;
`pending` is the number of such additions still unused. -/
def removalsMatched (primary : String) : Nat → List MonitorEvent → Bool
  | _, [] => true
  | pending, .added _ n :: es =>
    if n ≠ primary ∧ n ≠ kFallbackMonitorName then removalsMatched primary (pending + 1) es
    else removalsMatched primary pending es
  | pending, .removed _ n :: es =>
    if n ≠ primary ∧ n ≠ kFallbackMonitorName then
      match pending with
      | 0 => false
      | p + 1 => removalsMatched primary p es
    else removalsMatched primary pending es

/-! ## Traces of all events, with the set of attached monitors -/

/-- An event delivered by the host: the two dispatchers and the three callbacks. -/
inductive Event
  | lidClosed
  | lidOpen
  | monitorAdded (id : Int) (szName : String)
  | monitorRemoved (id : Int) (szName : String)
  | configReloaded (mainMonitorConfig lockCommadConfig DEBUG_FLAG : Option String)
  deriving DecidableEq, Repr

/-- The state after the handler of one event has run. -/
def Event.handle (s : State) : Event → State
  | .lidClosed => (Hyprlid.lidClosed s).1
  | .lidOpen => (Hyprlid.lidOpen s).1
  | .monitorAdded id n => (Hyprlid.monitorAdded s id n).1
  | .monitorRemoved id n => (Hyprlid.monitorRemoved s id n).1
  | .configReloaded m l d => (Hyprlid.configReloaded s m l d).1

/-- The state reached after a sequence of events. -/
def runEvents (s : State) (es : List Event) : State := es.foldl Event.handle s

/-- The names of the attached monitors after one event: an addition attaches its
monitor, a removal detaches it, every other event leaves them as they are. -/
def Event.attach (attached : List String) : Event → List String
  | .monitorAdded _ n => n :: attached
  | .monitorRemoved _ n => attached.erase n
  | _ => attached

/-- The state and the attached monitors after each event of a trace, in order. -/
def configsAfter : State → List String → List Event → List (State × List String)
  | _, _, [] => []
  | s, attached, e :: es =>
    (e.handle s, e.attach attached) :: configsAfter (e.handle s) (e.attach attached) es

/-- The number of attached monitors whose name is neither the current primary name nor
the fallback name. -/
def secondaryAttached (s : State) (attached : List String) : Nat :=
  attached.countP (fun n => decide (n ≠ s.g_mainMonitorName ∧ n ≠ kFallbackMonitorName))

/-- A monitor is added only when not attached and removed only when attached. -/
def Event.admissible (attached : List String) : Event → Bool
  | .monitorAdded _ n => decide (n ∉ attached)
  | .monitorRemoved _ n => decide (n ∈ attached)
  | _ => true

/-- A reload that supplies a primary-monitor string either keeps the primary name or
happens while neither the old nor the new primary name is attached. -/
def Event.keepsPrimary (s : State) (attached : List String) : Event → Bool
  | .configReloaded (some raw) _ _ =>
    decide ((⟨rtrim (getline raw.data ',')⟩ : String) = s.g_mainMonitorName) ||
      (decide (s.g_mainMonitorName ∉ attached) &&
        decide ((⟨rtrim (getline raw.data ',')⟩ : String) ∉ attached))
  | _ => true

/-- Every event of the trace is admissible where it occurs. -/
def traceAdmissible : List String → List Event → Bool
  | _, [] => true
  | attached, e :: es => e.admissible attached && traceAdmissible (e.attach attached) es

/-- Every reload of the trace keeps the primary name, or happens while neither the old
nor the new primary name is attached. -/
def traceKeepsPrimary : State → List String → List Event → Bool
  | _, _, [] => true
  | s, attached, e :: es =>
    e.keepsPrimary s attached && traceKeepsPrimary (e.handle s) (e.attach attached) es

/-! ## Name derivation as the specification words it -/

namespace Spec

/-- Whitespace: space, tab, newline, carriage return, form feed, vertical tab. -/
def isWhitespace (c : Char) : Bool :=
  c = ' ' || c = '\t' || c = '\n' || c = '\r' || c = Char.ofNat 12 || c = Char.ofNat 11

/-- The part of a descriptor before its first comma; all of it when it has none. -/
def firstField (d : List Char) : List Char := d.takeWhile (fun c => c ≠ ',')

/-- Removal of trailing whitespace. -/
def trimTrailing (l : List Char) : List Char := l.rdropWhile isWhitespace

/-- The monitor name a descriptor denotes. -/
def nameOfDescriptor (d : String) : String := ⟨trimTrailing (firstField d.data)⟩

/-- The trimmed value of a string: no leading and no trailing whitespace. -/
def trimmed (d : String) : String :=
  ⟨(d.data.dropWhile isWhitespace).rdropWhile isWhitespace⟩

end Spec

/-! ## Basic facts about the effect projections -/

@[simp] theorem commands_nil : commands [] = [] := rfl

@[simp] theorem commands_append (a b : List Effect) :
    commands (a ++ b) = commands a ++ commands b := by
  induction a with
  | nil => rfl
  | cons x xs ih => cases x <;> simp [commands, ih]

@[simp] theorem commands_hyprctl (c : Command) (es : List Effect) :
    commands (.hyprctl c :: es) = c :: commands es := rfl

@[simp] theorem commands_logInfo (s : State) (m : String) : commands (logInfo s m) = [] := by
  unfold logInfo notifyInfo
  split <;> rfl

@[simp] theorem wrapInt32_of_range (x : Int) (hlo : -2147483648 ≤ x) (hhi : x < 2147483648) :
    wrapInt32 x = x := by
  unfold wrapInt32
  omega

/-! ## The decision procedure, branch by branch -/

/-- C1: with a primary monitor configured, the lid closed and at least one secondary
monitor counted, `updateState` issues exactly one request, the disabling of the primary
display, and no other request. -/
theorem updateState_closed_secondary (s : State)
    (hcfg : s.g_mainMonitorConfig ≠ "") (hlid : s.g_isLidClosed = true)
    (hcnt : 1 ≤ s.g_secondaryMonitorsCount) :
    commands (updateState s) = [.disableDisplay s.g_mainMonitorName] := by
  have hpos : s.g_secondaryMonitorsCount > 0 := by omega
  simp [updateState, hcfg, hlid, hpos]

theorem updateState_closed_secondary_witness :
    commands (updateState
      { g_mainMonitorConfig := "eDP-1,1920x1080,0x0,1", g_mainMonitorName := "eDP-1",
        g_lockCommand := "loginctl lock-session", g_isDebug := true,
        g_isLidClosed := true, g_secondaryMonitorsCount := 2 })
      = [.disableDisplay "eDP-1"] :=
  updateState_closed_secondary _ (by decide) rfl (by decide)

/-- C2: with a primary monitor configured, the lid closed, no secondary monitor and a
lock command set, `updateState` issues exactly descriptor, lock action, power-off, in
that order, and no disable request; after a reload with the `eDP-1` descriptor and
`loginctl lock-session`, closing the lid issues that triple. -/
theorem updateState_closed_alone_lock :
    (∀ s : State, s.g_mainMonitorConfig ≠ "" → s.g_isLidClosed = true →
      s.g_secondaryMonitorsCount = 0 → s.g_lockCommand ≠ "" →
      commands (updateState s) =
        [.setDisplayDescriptor s.g_mainMonitorConfig, .invokeAction s.g_lockCommand,
         .setDisplayPower s.g_mainMonitorName false] ∧
      ∀ n, Command.disableDisplay n ∉ commands (updateState s)) ∧
    (∀ (s : State) (dbg : Option String), s.g_secondaryMonitorsCount = 0 →
      commands (lidClosed (configReloaded s (some "eDP-1,1920x1080,0x0,1")
        (some "loginctl lock-session") dbg).1).2 =
        [.setDisplayDescriptor "eDP-1,1920x1080,0x0,1", .invokeAction "loginctl lock-session",
         .setDisplayPower "eDP-1" false]) := by
  have hname : (⟨rtrim (getline "eDP-1,1920x1080,0x0,1".data ',')⟩ : String) = "eDP-1" := by
    decide
  refine ⟨?_, ?_⟩
  · intro s hcfg hlid hcnt hlock
    have h : commands (updateState s) =
        [.setDisplayDescriptor s.g_mainMonitorConfig, .invokeAction s.g_lockCommand,
         .setDisplayPower s.g_mainMonitorName false] := by
      simp [updateState, hcfg, hlid, hcnt, hlock]
    refine ⟨h, ?_⟩
    intro n hn
    rw [h] at hn
    simp at hn
  · intro s dbg hcnt
    cases dbg <;>
      simp [lidClosed, configReloaded, updateState, hcnt, hname]

theorem updateState_closed_alone_lock_witness :
    commands (updateState
        { g_mainMonitorConfig := "eDP-1,1920x1080,0x0,1", g_mainMonitorName := "eDP-1",
          g_lockCommand := "loginctl lock-session", g_isDebug := false,
          g_isLidClosed := true, g_secondaryMonitorsCount := 0 }) =
      [.setDisplayDescriptor "eDP-1,1920x1080,0x0,1", .invokeAction "loginctl lock-session",
       .setDisplayPower "eDP-1" false] ∧
    commands (lidClosed (configReloaded State.initial (some "eDP-1,1920x1080,0x0,1")
        (some "loginctl lock-session") none).1).2 =
      [.setDisplayDescriptor "eDP-1,1920x1080,0x0,1", .invokeAction "loginctl lock-session",
       .setDisplayPower "eDP-1" false] :=
  ⟨(updateState_closed_alone_lock.1 _ (by decide) rfl rfl (by decide)).1,
   updateState_closed_alone_lock.2 State.initial none rfl⟩

/-- C3: with no primary monitor configured (empty descriptor) `updateState` produces
no effect at all, hence no request, whatever the lid flag, the counter and the lock
command are. -/
theorem updateState_unconfigured (s : State) (hcfg : s.g_mainMonitorConfig = "") :
    updateState s = [] ∧ commands (updateState s) = [] := by
  simp [updateState, hcfg]

theorem updateState_unconfigured_witness :
    updateState
      { g_mainMonitorConfig := "", g_mainMonitorName := "eDP-1",
        g_lockCommand := "loginctl lock-session", g_isDebug := true,
        g_isLidClosed := true, g_secondaryMonitorsCount := 3 } = [] :=
  (updateState_unconfigured _ rfl).1

/-- C4: with the lid closed, no secondary monitor and no lock command, `updateState`
issues no request; after a reload with the `eDP-1` descriptor and no lock command,
closing the lid with no external monitor counted issues no request. -/
theorem updateState_closed_alone_nolock :
    (∀ s : State, s.g_isLidClosed = true → s.g_secondaryMonitorsCount = 0 →
      s.g_lockCommand = "" → commands (updateState s) = []) ∧
    (∀ (s : State) (lock dbg : Option String), s.g_secondaryMonitorsCount = 0 →
      (lock = some "" ∨ (lock = none ∧ s.g_lockCommand = "")) →
      commands (lidClosed (configReloaded s (some "eDP-1,1920x1080,0x0,1")
        lock dbg).1).2 = []) := by
  refine ⟨?_, ?_⟩
  · intro s hlid hcnt hlock
    simp [updateState, hlid, hcnt, hlock]
  · intro s lock dbg hcnt hl
    rcases hl with rfl | ⟨rfl, hlock⟩ <;> cases dbg <;>
      simp [lidClosed, configReloaded, updateState, hcnt, *]

theorem updateState_closed_alone_nolock_witness :
    commands (updateState
        { g_mainMonitorConfig := "eDP-1,1920x1080,0x0,1", g_mainMonitorName := "eDP-1",
          g_lockCommand := "", g_isDebug := false,
          g_isLidClosed := true, g_secondaryMonitorsCount := 0 }) = [] ∧
    commands (lidClosed (configReloaded State.initial (some "eDP-1,1920x1080,0x0,1")
        none none).1).2 = [] :=
  ⟨updateState_closed_alone_nolock.1 _ rfl rfl rfl,
   updateState_closed_alone_nolock.2 State.initial none none rfl (Or.inr ⟨rfl, rfl⟩)⟩

/-- C5, as stated, fails: in the initial state (no primary monitor configured) `lidOpen`
issues no request instead of the descriptor / power-on pair. -/
theorem lidOpen_unconfigured_counterexample :
    commands (lidOpen State.initial).2 = [] ∧
    commands (lidOpen State.initial).2 ≠
      [.setDisplayDescriptor State.initial.g_mainMonitorConfig,
       .setDisplayPower State.initial.g_mainMonitorName true] := by
  decide

/-- C5, amended: from any state `lidOpen` clears the lid flag and leaves every other
field as it was; with a primary monitor configured it issues exactly descriptor then
power-on, and with none configured it issues no request. -/
theorem lidOpen_spec (s : State) :
    (lidOpen s).1 = { s with g_isLidClosed := false } ∧
    (s.g_mainMonitorConfig ≠ "" →
      commands (lidOpen s).2 =
        [.setDisplayDescriptor s.g_mainMonitorConfig,
         .setDisplayPower s.g_mainMonitorName true]) ∧
    (s.g_mainMonitorConfig = "" → commands (lidOpen s).2 = []) := by
  refine ⟨rfl, ?_, ?_⟩
  · intro hcfg
    simp [lidOpen, updateState, hcfg]
  · intro hcfg
    simp [lidOpen, updateState, hcfg]

theorem lidOpen_spec_witness :
    commands (lidOpen
        { g_mainMonitorConfig := "eDP-1,1920x1080,0x0,1", g_mainMonitorName := "eDP-1",
          g_lockCommand := "", g_isDebug := false,
          g_isLidClosed := true, g_secondaryMonitorsCount := 4 }).2 =
      [.setDisplayDescriptor "eDP-1,1920x1080,0x0,1", .setDisplayPower "eDP-1" true] ∧
    commands (lidOpen State.initial).2 = [] :=
  ⟨(lidOpen_spec _).2.1 (by decide), (lidOpen_spec State.initial).2.2 rfl⟩

/-! ## The secondary-monitor counter along a trace -/

theorem monitorAdded_state (s : State) (id : Int) (n : String) :
    (monitorAdded s id n).1 =
      if n ≠ s.g_mainMonitorName ∧ n ≠ kFallbackMonitorName then
        { s with g_secondaryMonitorsCount := wrapInt32 (s.g_secondaryMonitorsCount + 1) }
      else s := by
  unfold monitorAdded
  split
  · simp only []
    split <;> rfl
  · rfl

theorem monitorRemoved_state (s : State) (id : Int) (n : String) :
    (monitorRemoved s id n).1 =
      if n ≠ s.g_mainMonitorName ∧ n ≠ kFallbackMonitorName then
        { s with g_secondaryMonitorsCount := wrapInt32 (s.g_secondaryMonitorsCount - 1) }
      else s := by
  unfold monitorRemoved
  split
  · simp only []
    split <;> rfl
  · rfl

theorem statesAfter_count_nonneg (es : List MonitorEvent) :
    ∀ (s : State) (pending : Nat), s.g_secondaryMonitorsCount = pending →
      pending + es.length < 2147483648 →
      removalsMatched s.g_mainMonitorName pending es = true →
      ∀ s1 ∈ statesAfter s es, 0 ≤ s1.g_secondaryMonitorsCount := by
  induction es with
  | nil => intro s pending _ _ _ s1 h1; simp [statesAfter] at h1
  | cons e es ih =>
    intro s pending hcnt hlen hm s1 h1
    simp only [List.length_cons] at hlen
    cases e with
    | added id n =>
      by_cases hn : n ≠ s.g_mainMonitorName ∧ n ≠ kFallbackMonitorName
      · have hs : MonitorEvent.handle s (.added id n) =
            { s with g_secondaryMonitorsCount := (pending : Int) + 1 } := by
          simp only [MonitorEvent.handle, monitorAdded_state, if_pos hn, hcnt]
          rw [wrapInt32_of_range _ (by omega) (by omega)]
        simp only [removalsMatched, if_pos hn] at hm
        simp only [statesAfter, hs, List.mem_cons] at h1
        rcases h1 with rfl | h1
        · show (0 : Int) ≤ (pending : Int) + 1
          omega
        · exact ih { s with g_secondaryMonitorsCount := (pending : Int) + 1 } (pending + 1)
            (by simp) (by omega) hm s1 h1
      · have hs : MonitorEvent.handle s (.added id n) = s := by
          simp only [MonitorEvent.handle, monitorAdded_state, if_neg hn]
        simp only [removalsMatched, if_neg hn] at hm
        simp only [statesAfter, hs, List.mem_cons] at h1
        rcases h1 with rfl | h1
        · omega
        · exact ih s pending hcnt (by omega) hm s1 h1
    | removed id n =>
      by_cases hn : n ≠ s.g_mainMonitorName ∧ n ≠ kFallbackMonitorName
      · simp only [removalsMatched, if_pos hn] at hm
        cases pending with
        | zero => simp at hm
        | succ q =>
          simp only at hm
          have hs : MonitorEvent.handle s (.removed id n) =
              { s with g_secondaryMonitorsCount := (q : Int) } := by
            simp only [MonitorEvent.handle, monitorRemoved_state, if_pos hn, hcnt]
            rw [wrapInt32_of_range _ (by push_cast; omega) (by push_cast; omega)]
            congr 1
            push_cast
            omega
          simp only [statesAfter, hs, List.mem_cons] at h1
          rcases h1 with rfl | h1
          · show (0 : Int) ≤ (q : Int)
            omega
          · exact ih { s with g_secondaryMonitorsCount := (q : Int) } q rfl (by omega) hm s1 h1
      · have hs : MonitorEvent.handle s (.removed id n) = s := by
          simp only [MonitorEvent.handle, monitorRemoved_state, if_neg hn]
        simp only [removalsMatched, if_neg hn] at hm
        simp only [statesAfter, hs, List.mem_cons] at h1
        rcases h1 with rfl | h1
        · omega
        · exact ih s pending hcnt (by omega) hm s1 h1

/-- C6, as stated, fails: the very first notification being the removal of an external
monitor takes the counter from 0 to -1. -/
theorem monitorRemoved_initial_counterexample :
    (statesAfter State.initial [.removed 1 "HDMI-A-1"]).map State.g_secondaryMonitorsCount
      = [-1] ∧
    ¬ ∀ s1 ∈ statesAfter State.initial [.removed 1 "HDMI-A-1"],
        0 ≤ s1.g_secondaryMonitorsCount := by
  refine ⟨by decide, ?_⟩
  intro h
  have h1 := h (MonitorEvent.handle State.initial (.removed 1 "HDMI-A-1"))
    (by simp [statesAfter])
  revert h1
  decide

/-- C6, amended: from the initial state, along any trace of fewer than 2^31 monitor
notifications in which every removal of a non-primary, non-fallback monitor is matched by
an earlier unused addition of such a monitor, the counter is non-negative after each
call. -/
theorem monitor_trace_count_nonneg (es : List MonitorEvent)
    (hlen : es.length < 2147483648)
    (hm : removalsMatched State.initial.g_mainMonitorName 0 es = true) :
    ∀ s1 ∈ statesAfter State.initial es, 0 ≤ s1.g_secondaryMonitorsCount :=
  statesAfter_count_nonneg es State.initial 0 rfl (by simpa using hlen) hm

theorem monitor_trace_count_nonneg_witness :
    removalsMatched State.initial.g_mainMonitorName 0
        [.added 1 "HDMI-A-1", .added 2 "FALLBACK", .removed 2 "FALLBACK",
         .removed 1 "HDMI-A-1", .removed 0 ""] = true ∧
    0 ≤ (MonitorEvent.handle (MonitorEvent.handle (MonitorEvent.handle
          (MonitorEvent.handle State.initial (.added 1 "HDMI-A-1")) (.added 2 "FALLBACK"))
          (.removed 2 "FALLBACK")) (.removed 1 "HDMI-A-1")).g_secondaryMonitorsCount :=
  ⟨by decide,
   monitor_trace_count_nonneg
     [.added 1 "HDMI-A-1", .added 2 "FALLBACK", .removed 2 "FALLBACK",
      .removed 1 "HDMI-A-1", .removed 0 ""] (by decide) (by decide) _ (by decide)⟩

/-! ## Name derivation -/

theorem getline_eq_takeWhile (l : List Char) (delim : Char) :
    getline l delim = l.takeWhile (fun c => c ≠ delim) := by
  induction l with
  | nil => rfl
  | cons c cs ih =>
    by_cases h : c = delim
    · simp [getline, List.takeWhile_cons, h]
    · simp [getline, List.takeWhile_cons, h, ih]

theorem find_last_not_of_cons (c : Char) (cs t : List Char) :
    find_last_not_of (c :: cs) t =
      match find_last_not_of cs t with
      | some i => some (i + 1)
      | none => if c ∈ t then none else some 0 := rfl

theorem find_last_not_of_concat (xs : List Char) (c : Char) (t : List Char) :
    find_last_not_of (xs ++ [c]) t =
      if c ∈ t then find_last_not_of xs t else some xs.length := by
  induction xs with
  | nil =>
    by_cases h : c ∈ t <;> simp [find_last_not_of, h]
  | cons x xs ih =>
    rw [List.cons_append, find_last_not_of_cons, ih]
    by_cases h : c ∈ t
    · rw [if_pos h, if_pos h, find_last_not_of_cons]
    · rw [if_neg h, if_neg h, List.length_cons]

theorem find_last_not_of_lt (xs : List Char) (t : List Char) :
    ∀ i, find_last_not_of xs t = some i → i < xs.length := by
  induction xs with
  | nil => intro i h; simp [find_last_not_of] at h
  | cons x xs ih =>
    intro i h
    simp only [find_last_not_of] at h
    cases hq : find_last_not_of xs t with
    | some j =>
      rw [hq] at h
      simp only [Option.some.injEq] at h
      have := ih j hq
      simp only [List.length_cons]
      omega
    | none =>
      rw [hq] at h
      by_cases hx : x ∈ t
      · simp [hx] at h
      · simp only [if_neg hx, Option.some.injEq] at h
        simp only [List.length_cons]
        omega

theorem rtrim_eq_rdropWhile (s t : List Char) :
    rtrim s t = s.rdropWhile (fun c => decide (c ∈ t)) := by
  induction s using List.reverseRecOn with
  | nil => rfl
  | append_singleton xs c ih =>
    rw [List.rdropWhile_concat]
    by_cases h : c ∈ t
    · simp only [h, decide_True, if_true]
      rw [← ih]
      unfold rtrim
      rw [find_last_not_of_concat, if_pos h]
      cases hq : find_last_not_of xs t with
      | none => simp
      | some i =>
        have := find_last_not_of_lt xs t i hq
        simp only []
        exact List.take_append_of_le_length (by omega)
    · simp only [h, decide_False, Bool.false_eq_true, if_false]
      unfold rtrim
      rw [find_last_not_of_concat, if_neg h]
      simp

theorem isWhitespace_eq (c : Char) : Spec.isWhitespace c = decide (c ∈ rtrimChars) := by
  simp [Spec.isWhitespace, rtrimChars, Bool.or_assoc]

theorem rtrim_getline_eq_spec (d : String) :
    (⟨rtrim (getline d.data ',')⟩ : String) = Spec.nameOfDescriptor d := by
  unfold Spec.nameOfDescriptor Spec.trimTrailing Spec.firstField
  rw [rtrim_eq_rdropWhile, getline_eq_takeWhile]
  congr 2
  funext c
  exact (isWhitespace_eq c).symm

theorem configReloaded_some_state (s : State) (raw : String) (lock dbg : Option String) :
    (configReloaded s (some raw) lock dbg).1 =
      { g_mainMonitorConfig := raw
        g_mainMonitorName := ⟨rtrim (getline raw.data ',')⟩
        g_lockCommand := lock.getD s.g_lockCommand
        g_isDebug := (dbg.map (fun d => decide (d = kTrue))).getD s.g_isDebug
        g_isLidClosed := s.g_isLidClosed
        g_secondaryMonitorsCount := s.g_secondaryMonitorsCount } := by
  cases lock <;> cases dbg <;> rfl

/-- C7: after a reload that supplies a primary-monitor string, the stored name is the
part of the stored descriptor before its first comma (all of it when there is none)
with trailing whitespace removed; for `eDP-1, 1920x1080, 0x0, 1` it is `eDP-1`. -/
theorem configReloaded_name :
    (∀ (s : State) (raw : String) (lock dbg : Option String),
      (configReloaded s (some raw) lock dbg).1.g_mainMonitorName =
        Spec.nameOfDescriptor (configReloaded s (some raw) lock dbg).1.g_mainMonitorConfig) ∧
    (∀ (s : State) (lock dbg : Option String),
      (configReloaded s (some "eDP-1, 1920x1080, 0x0, 1") lock dbg).1.g_mainMonitorConfig =
        "eDP-1, 1920x1080, 0x0, 1" ∧
      (configReloaded s (some "eDP-1, 1920x1080, 0x0, 1") lock dbg).1.g_mainMonitorName =
        "eDP-1") := by
  refine ⟨?_, ?_⟩
  · intro s raw lock dbg
    rw [configReloaded_some_state]
    exact rtrim_getline_eq_spec raw
  · intro s lock dbg
    rw [configReloaded_some_state]
    refine ⟨rfl, ?_⟩
    show (⟨rtrim (getline "eDP-1, 1920x1080, 0x0, 1".data ',')⟩ : String) = "eDP-1"
    decide

/-! ## Reload without the primary-monitor value -/

/-- C8: a reload whose primary-monitor value is missing leaves every field of the state
as it was and issues no request, whatever lock-command and debug values it carries; its
only effect is the log line. -/
theorem configReloaded_missing_primary (s : State) (lock dbg : Option String) :
    (configReloaded s none lock dbg).1 = s ∧
    commands (configReloaded s none lock dbg).2 = [] ∧
    (configReloaded s none lock dbg).2 =
      logInfo s "Failed to read laptop_monitor config value" := by
  simp [configReloaded]

/-- C9, evaluated: in the initial state (debug off) a reload whose primary-monitor value
is missing writes one INFO log line and raises no notification; in debug mode the same
failure is logged at INFO and shown by the informational notification; in neither case
are the effects those of `logErr`. -/
theorem configReloaded_missing_primary_logs_info :
    (configReloaded State.initial none none none).2 =
      [.log .INFO "Failed to read laptop_monitor config value"] ∧
    notifications (configReloaded State.initial none none none).2 = [] ∧
    (configReloaded { State.initial with g_isDebug := true } none none none).2 =
      [.log .INFO "Failed to read laptop_monitor config value",
       .notifyInfo "Failed to read laptop_monitor config value"] ∧
    (configReloaded State.initial none none none).2 ≠
      logErr "Failed to read laptop_monitor config value" := by
  decide

/-! ## Notifications about the primary or the fallback monitor -/

/-- C10: `monitorAdded` and `monitorRemoved` called with the current primary name or with
`FALLBACK` leave the whole state as it was, issue no request, and produce only their log
line. -/
theorem monitor_event_filtered (s : State) (id : Int) (n : String)
    (hn : n = s.g_mainMonitorName ∨ n = kFallbackMonitorName) :
    ((monitorAdded s id n).1 = s ∧
      commands (monitorAdded s id n).2 = [] ∧
      (monitorAdded s id n).2 =
        logInfo s ("Monitor[" ++ toString id ++ "] added: [" ++ n ++ "]")) ∧
    ((monitorRemoved s id n).1 = s ∧
      commands (monitorRemoved s id n).2 = [] ∧
      (monitorRemoved s id n).2 =
        logInfo s ("Monitor[" ++ toString id ++ "] removed: [" ++ n ++ "]")) := by
  have hg : ¬ (n ≠ s.g_mainMonitorName ∧ n ≠ kFallbackMonitorName) := by
    rcases hn with h | h <;> simp [h]
  simp only [monitorAdded, monitorRemoved, if_neg hg, commands_logInfo, and_self]

theorem monitor_event_filtered_witness :
    (monitorAdded
        { g_mainMonitorConfig := "eDP-1,1920x1080,0x0,1", g_mainMonitorName := "eDP-1",
          g_lockCommand := "loginctl lock-session", g_isDebug := false,
          g_isLidClosed := true, g_secondaryMonitorsCount := 0 } 0 "eDP-1").1.g_secondaryMonitorsCount
      = 0 ∧
    commands (monitorRemoved
        { g_mainMonitorConfig := "eDP-1,1920x1080,0x0,1", g_mainMonitorName := "eDP-1",
          g_lockCommand := "loginctl lock-session", g_isDebug := false,
          g_isLidClosed := true, g_secondaryMonitorsCount := 1 } 7 "FALLBACK").2 = [] :=
  ⟨by rw [(monitor_event_filtered _ 0 "eDP-1" (Or.inl rfl)).1.1],
   (monitor_event_filtered _ 7 "FALLBACK" (Or.inr rfl)).2.2.1⟩

/-! ## Notifications about a secondary monitor -/

theorem monitorAdded_commands (s : State) (id : Int) (n : String)
    (hn : n ≠ s.g_mainMonitorName ∧ n ≠ kFallbackMonitorName) :
    commands (monitorAdded s id n).2 =
      if (monitorAdded s id n).1.g_secondaryMonitorsCount > 0 then
        commands (updateState (monitorAdded s id n).1)
      else [] := by
  unfold monitorAdded
  rw [if_pos hn]
  simp only []
  split <;> simp [*]

theorem monitorRemoved_commands (s : State) (id : Int) (n : String)
    (hn : n ≠ s.g_mainMonitorName ∧ n ≠ kFallbackMonitorName) :
    commands (monitorRemoved s id n).2 =
      if (monitorRemoved s id n).1.g_secondaryMonitorsCount < 1 then
        commands (updateState (monitorRemoved s id n).1)
      else [] := by
  unfold monitorRemoved
  rw [if_pos hn]
  simp only []
  split <;> simp [*]

theorem monitorAdded_of_lt_max (s : State) (id : Int) (n : String)
    (hp : n ≠ s.g_mainMonitorName) (hf : n ≠ kFallbackMonitorName)
    (hlo : -2147483648 ≤ s.g_secondaryMonitorsCount)
    (hhi : s.g_secondaryMonitorsCount < 2147483647) :
    (monitorAdded s id n).1 =
      { s with g_secondaryMonitorsCount := s.g_secondaryMonitorsCount + 1 } ∧
    (0 < s.g_secondaryMonitorsCount + 1 →
      commands (monitorAdded s id n).2 = commands (updateState (monitorAdded s id n).1)) ∧
    (s.g_secondaryMonitorsCount + 1 ≤ 0 → commands (monitorAdded s id n).2 = []) := by
  have hst : (monitorAdded s id n).1 =
      { s with g_secondaryMonitorsCount := s.g_secondaryMonitorsCount + 1 } := by
    rw [monitorAdded_state, if_pos ⟨hp, hf⟩, wrapInt32_of_range _ (by omega) (by omega)]
  have hcnt : (monitorAdded s id n).1.g_secondaryMonitorsCount =
      s.g_secondaryMonitorsCount + 1 := by rw [hst]
  refine ⟨hst, ?_, ?_⟩
  · intro h
    rw [monitorAdded_commands s id n ⟨hp, hf⟩, if_pos (by omega)]
  · intro h
    rw [monitorAdded_commands s id n ⟨hp, hf⟩, if_neg (by omega)]

theorem monitorRemoved_of_gt_min (s : State) (id : Int) (n : String)
    (hp : n ≠ s.g_mainMonitorName) (hf : n ≠ kFallbackMonitorName)
    (hlo : -2147483648 < s.g_secondaryMonitorsCount)
    (hhi : s.g_secondaryMonitorsCount ≤ 2147483647) :
    (monitorRemoved s id n).1 =
      { s with g_secondaryMonitorsCount := s.g_secondaryMonitorsCount - 1 } ∧
    (s.g_secondaryMonitorsCount - 1 < 1 →
      commands (monitorRemoved s id n).2 =
        commands (updateState (monitorRemoved s id n).1)) ∧
    (1 ≤ s.g_secondaryMonitorsCount - 1 → commands (monitorRemoved s id n).2 = []) := by
  have hst : (monitorRemoved s id n).1 =
      { s with g_secondaryMonitorsCount := s.g_secondaryMonitorsCount - 1 } := by
    rw [monitorRemoved_state, if_pos ⟨hp, hf⟩, wrapInt32_of_range _ (by omega) (by omega)]
  have hcnt : (monitorRemoved s id n).1.g_secondaryMonitorsCount =
      s.g_secondaryMonitorsCount - 1 := by rw [hst]
  refine ⟨hst, ?_, ?_⟩
  · intro h
    rw [monitorRemoved_commands s id n ⟨hp, hf⟩, if_pos (by omega)]
  · intro h
    rw [monitorRemoved_commands s id n ⟨hp, hf⟩, if_neg (by omega)]

/-- C11, as stated, fails: at the largest 32-bit value the increment wraps, so the
counter goes from 2147483647 to -2147483648 instead of growing by one. -/
theorem monitorAdded_wrap_counterexample :
    (monitorAdded
        { g_mainMonitorConfig := "eDP-1,1920x1080,0x0,1", g_mainMonitorName := "eDP-1",
          g_lockCommand := "", g_isDebug := false, g_isLidClosed := true,
          g_secondaryMonitorsCount := 2147483647 } 2 "DP-2").1.g_secondaryMonitorsCount
      = -2147483648 ∧
    (monitorAdded
        { g_mainMonitorConfig := "eDP-1,1920x1080,0x0,1", g_mainMonitorName := "eDP-1",
          g_lockCommand := "", g_isDebug := false, g_isLidClosed := true,
          g_secondaryMonitorsCount := 2147483647 } 2 "DP-2").1.g_secondaryMonitorsCount
      ≠ 2147483647 + 1 := by
  decide

/-- C11, amended: for a 32-bit counter value below 2147483647 and a name that is neither
the primary name nor the fallback name, `monitorAdded` adds exactly one to the counter,
changes no other field, and issues exactly the requests of `updateState` in the updated
state when the updated counter is positive, none when it is not. -/
theorem monitorAdded_secondary (s : State) (id : Int) (n : String)
    (hp : n ≠ s.g_mainMonitorName) (hf : n ≠ kFallbackMonitorName)
    (hlo : -2147483648 ≤ s.g_secondaryMonitorsCount)
    (hhi : s.g_secondaryMonitorsCount < 2147483647) :
    (monitorAdded s id n).1 =
      { s with g_secondaryMonitorsCount := s.g_secondaryMonitorsCount + 1 } ∧
    (0 < s.g_secondaryMonitorsCount + 1 →
      commands (monitorAdded s id n).2 = commands (updateState (monitorAdded s id n).1)) ∧
    (s.g_secondaryMonitorsCount + 1 ≤ 0 → commands (monitorAdded s id n).2 = []) :=
  monitorAdded_of_lt_max s id n hp hf hlo hhi

theorem monitorAdded_secondary_witness :
    (monitorAdded
        { g_mainMonitorConfig := "eDP-1,1920x1080,0x0,1", g_mainMonitorName := "eDP-1",
          g_lockCommand := "", g_isDebug := false, g_isLidClosed := true,
          g_secondaryMonitorsCount := 0 } 1 "HDMI-A-1").1 =
      { g_mainMonitorConfig := "eDP-1,1920x1080,0x0,1", g_mainMonitorName := "eDP-1",
        g_lockCommand := "", g_isDebug := false, g_isLidClosed := true,
        g_secondaryMonitorsCount := 0 + 1 } :=
  (monitorAdded_secondary _ 1 "HDMI-A-1" (by decide) (by decide) (by decide) (by decide)).1

/-- C12, as stated, fails: at the smallest 32-bit value the decrement wraps, so the
counter goes from -2147483648 to 2147483647 instead of shrinking by one. -/
theorem monitorRemoved_wrap_counterexample :
    (monitorRemoved
        { g_mainMonitorConfig := "eDP-1,1920x1080,0x0,1", g_mainMonitorName := "eDP-1",
          g_lockCommand := "", g_isDebug := false, g_isLidClosed := true,
          g_secondaryMonitorsCount := -2147483648 } 2 "DP-2").1.g_secondaryMonitorsCount
      = 2147483647 ∧
    (monitorRemoved
        { g_mainMonitorConfig := "eDP-1,1920x1080,0x0,1", g_mainMonitorName := "eDP-1",
          g_lockCommand := "", g_isDebug := false, g_isLidClosed := true,
          g_secondaryMonitorsCount := -2147483648 } 2 "DP-2").1.g_secondaryMonitorsCount
      ≠ -2147483648 - 1 := by
  decide

/-- C12, amended: for a 32-bit counter value above -2147483648 and a name that is
neither the primary name nor the fallback name, `monitorRemoved` takes exactly one off
the counter, changes no other field, and issues exactly the requests of `updateState`
in the updated state when the updated counter is below one, none when it is not. -/
theorem monitorRemoved_secondary (s : State) (id : Int) (n : String)
    (hp : n ≠ s.g_mainMonitorName) (hf : n ≠ kFallbackMonitorName)
    (hlo : -2147483648 < s.g_secondaryMonitorsCount)
    (hhi : s.g_secondaryMonitorsCount ≤ 2147483647) :
    (monitorRemoved s id n).1 =
      { s with g_secondaryMonitorsCount := s.g_secondaryMonitorsCount - 1 } ∧
    (s.g_secondaryMonitorsCount - 1 < 1 →
      commands (monitorRemoved s id n).2 =
        commands (updateState (monitorRemoved s id n).1)) ∧
    (1 ≤ s.g_secondaryMonitorsCount - 1 → commands (monitorRemoved s id n).2 = []) :=
  monitorRemoved_of_gt_min s id n hp hf hlo hhi

theorem monitorRemoved_secondary_witness :
    (monitorRemoved
        { g_mainMonitorConfig := "eDP-1,1920x1080,0x0,1", g_mainMonitorName := "eDP-1",
          g_lockCommand := "", g_isDebug := false, g_isLidClosed := true,
          g_secondaryMonitorsCount := 2 } 1 "HDMI-A-1").1 =
      { g_mainMonitorConfig := "eDP-1,1920x1080,0x0,1", g_mainMonitorName := "eDP-1",
        g_lockCommand := "", g_isDebug := false, g_isLidClosed := true,
        g_secondaryMonitorsCount := 2 - 1 } :=
  (monitorRemoved_secondary _ 1 "HDMI-A-1" (by decide) (by decide) (by decide) (by decide)).1

/-- C13, as stated, fails: with `eDP-1` configured, the lid open and no secondary
monitor, the addition of `HDMI-A-1` makes the counter 1 and re-applies the descriptor
and powers the primary display on, instead of issuing nothing. -/
theorem monitorAdded_lid_open_counterexample :
    (monitorAdded
        { g_mainMonitorConfig := "eDP-1,1920x1080,0x0,1", g_mainMonitorName := "eDP-1",
          g_lockCommand := "", g_isDebug := false, g_isLidClosed := false,
          g_secondaryMonitorsCount := 0 } 1 "HDMI-A-1").1.g_secondaryMonitorsCount = 1 ∧
    commands (monitorAdded
        { g_mainMonitorConfig := "eDP-1,1920x1080,0x0,1", g_mainMonitorName := "eDP-1",
          g_lockCommand := "", g_isDebug := false, g_isLidClosed := false,
          g_secondaryMonitorsCount := 0 } 1 "HDMI-A-1").2 =
      [.setDisplayDescriptor "eDP-1,1920x1080,0x0,1", .setDisplayPower "eDP-1" true] ∧
    commands (monitorAdded
        { g_mainMonitorConfig := "eDP-1,1920x1080,0x0,1", g_mainMonitorName := "eDP-1",
          g_lockCommand := "", g_isDebug := false, g_isLidClosed := false,
          g_secondaryMonitorsCount := 0 } 1 "HDMI-A-1").2 ≠ [] := by
  decide

/-- C13, amended: with a primary monitor configured, the lid open and the counter at 0,
`monitorAdded` for a monitor that is neither the primary nor the fallback makes the
counter 1 and issues exactly descriptor then power-on; no disable and no lock request. -/
theorem monitorAdded_lid_open (s : State) (id : Int) (n : String)
    (hcfg : s.g_mainMonitorConfig ≠ "") (hlid : s.g_isLidClosed = false)
    (hcnt : s.g_secondaryMonitorsCount = 0)
    (hp : n ≠ s.g_mainMonitorName) (hf : n ≠ kFallbackMonitorName) :
    (monitorAdded s id n).1.g_secondaryMonitorsCount = 1 ∧
    commands (monitorAdded s id n).2 =
      [.setDisplayDescriptor s.g_mainMonitorConfig,
       .setDisplayPower s.g_mainMonitorName true] := by
  have h := monitorAdded_of_lt_max s id n hp hf (by omega) (by omega)
  refine ⟨by rw [h.1]; simp [hcnt], ?_⟩
  rw [h.2.1 (by omega), h.1]
  simp [updateState, hcfg, hlid]

theorem monitorAdded_lid_open_witness :
    commands (monitorAdded
        { g_mainMonitorConfig := "eDP-1,1920x1080,0x0,1", g_mainMonitorName := "eDP-1",
          g_lockCommand := "loginctl lock-session", g_isDebug := true,
          g_isLidClosed := false, g_secondaryMonitorsCount := 0 } 3 "DP-1").2 =
      [.setDisplayDescriptor "eDP-1,1920x1080,0x0,1", .setDisplayPower "eDP-1" true] :=
  (monitorAdded_lid_open _ 3 "DP-1" (by decide) rfl rfl (by decide) (by decide)).2

/-- C14: with `eDP-1` configured and exactly one secondary monitor counted (the lid open
or not), `lidClosed` issues exactly the disabling of `eDP-1`; the following `monitorRemoved` of a secondary
monitor brings the counter to 0 and issues exactly descriptor, lock action, power-off
when a lock command is set, and nothing when none is. -/
theorem lidClosed_then_monitorRemoved (s : State) (id : Int) (n : String)
    (hcfg : s.g_mainMonitorConfig ≠ "") (hname : s.g_mainMonitorName = "eDP-1")
    (hcnt : s.g_secondaryMonitorsCount = 1)
    (hp : n ≠ "eDP-1") (hf : n ≠ kFallbackMonitorName) :
    commands (lidClosed s).2 = [.disableDisplay "eDP-1"] ∧
    (monitorRemoved (lidClosed s).1 id n).1.g_secondaryMonitorsCount = 0 ∧
    (s.g_lockCommand ≠ "" →
      commands (monitorRemoved (lidClosed s).1 id n).2 =
        [.setDisplayDescriptor s.g_mainMonitorConfig, .invokeAction s.g_lockCommand,
         .setDisplayPower "eDP-1" false]) ∧
    (s.g_lockCommand = "" → commands (monitorRemoved (lidClosed s).1 id n).2 = []) := by
  have hp1 : n ≠ (lidClosed s).1.g_mainMonitorName := by
    show n ≠ s.g_mainMonitorName
    rw [hname]; exact hp
  have hc1 : (lidClosed s).1.g_secondaryMonitorsCount = 1 := hcnt
  have h := monitorRemoved_of_gt_min (lidClosed s).1 id n hp1 hf (by omega) (by omega)
  have hcmd := h.2.1 (by omega)
  rw [h.1] at hcmd
  refine ⟨?_, by rw [h.1]; simp [hc1], ?_, ?_⟩
  · simp [lidClosed, updateState, hcfg, hcnt, hname]
  · intro hlock
    rw [hcmd]
    simp [lidClosed, updateState, hcfg, hcnt, hname, hlock]
  · intro hlock
    rw [hcmd]
    simp [lidClosed, updateState, hcfg, hcnt, hname, hlock]

theorem lidClosed_then_monitorRemoved_witness :
    commands (lidClosed
        { g_mainMonitorConfig := "eDP-1,1920x1080,0x0,1", g_mainMonitorName := "eDP-1",
          g_lockCommand := "loginctl lock-session", g_isDebug := false,
          g_isLidClosed := false, g_secondaryMonitorsCount := 1 }).2 =
      [.disableDisplay "eDP-1"] ∧
    commands (monitorRemoved (lidClosed
        { g_mainMonitorConfig := "eDP-1,1920x1080,0x0,1", g_mainMonitorName := "eDP-1",
          g_lockCommand := "loginctl lock-session", g_isDebug := false,
          g_isLidClosed := false, g_secondaryMonitorsCount := 1 }).1 1 "HDMI-A-1").2 =
      [.setDisplayDescriptor "eDP-1,1920x1080,0x0,1", .invokeAction "loginctl lock-session",
       .setDisplayPower "eDP-1" false] :=
  ⟨(lidClosed_then_monitorRemoved _ 1 "HDMI-A-1" (by decide) rfl rfl
      (by decide) (by decide)).1,
   (lidClosed_then_monitorRemoved _ 1 "HDMI-A-1" (by decide) rfl rfl
      (by decide) (by decide)).2.2.1 (by decide)⟩

/-! ## Shape of one run of the decision procedure -/

theorem updateState_commands_cases (s : State) :
    commands (updateState s) = [] ∨
      commands (updateState s) = [.disableDisplay s.g_mainMonitorName] ∨
      commands (updateState s) =
        [.setDisplayDescriptor s.g_mainMonitorConfig, .invokeAction s.g_lockCommand,
         .setDisplayPower s.g_mainMonitorName false] ∨
      commands (updateState s) =
        [.setDisplayDescriptor s.g_mainMonitorConfig,
         .setDisplayPower s.g_mainMonitorName true] := by
  by_cases hcfg : s.g_mainMonitorConfig = ""
  · simp [updateState, hcfg]
  · by_cases hlid : s.g_isLidClosed = true
    · by_cases hcnt : s.g_secondaryMonitorsCount > 0
      · simp [updateState, hcfg, hlid, hcnt]
      · by_cases hlock : s.g_lockCommand = ""
        · simp [updateState, hcfg, hlid, hcnt, hlock]
        · simp [updateState, hcfg, hlid, hcnt, hlock]
    · simp [updateState, hcfg, hlid]

/-- C16: the requests of one `updateState` run are the empty list, the single disabling,
the triple descriptor / lock action / power-off, or the pair descriptor / power-on; a
run that disables issues nothing else, and a run that invokes the lock action issues
the triple, with the lid closed and the counter not positive. -/
theorem updateState_shape (s : State) :
    (commands (updateState s) = [] ∨
      commands (updateState s) = [.disableDisplay s.g_mainMonitorName] ∨
      commands (updateState s) =
        [.setDisplayDescriptor s.g_mainMonitorConfig, .invokeAction s.g_lockCommand,
         .setDisplayPower s.g_mainMonitorName false] ∨
      commands (updateState s) =
        [.setDisplayDescriptor s.g_mainMonitorConfig,
         .setDisplayPower s.g_mainMonitorName true]) ∧
    (∀ n a, ¬ (Command.disableDisplay n ∈ commands (updateState s) ∧
      Command.invokeAction a ∈ commands (updateState s))) ∧
    (∀ n, Command.disableDisplay n ∈ commands (updateState s) →
      commands (updateState s) = [.disableDisplay s.g_mainMonitorName]) ∧
    (∀ a, Command.invokeAction a ∈ commands (updateState s) →
      s.g_isLidClosed = true ∧ ¬ s.g_secondaryMonitorsCount > 0 ∧
      commands (updateState s) =
        [.setDisplayDescriptor s.g_mainMonitorConfig, .invokeAction s.g_lockCommand,
         .setDisplayPower s.g_mainMonitorName false]) := by
  by_cases hcfg : s.g_mainMonitorConfig = ""
  · simp [updateState, hcfg]
  · by_cases hlid : s.g_isLidClosed = true
    · by_cases hcnt : s.g_secondaryMonitorsCount > 0
      · simp [updateState, hcfg, hlid, hcnt]
      · by_cases hlock : s.g_lockCommand = ""
        · simp [updateState, hcfg, hlid, hcnt, hlock]
        · simp [updateState, hcfg, hlid, hcnt, hlock]
    · simp [updateState, hcfg, hlid]

theorem updateState_shape_witness :
    (commands (updateState
        { g_mainMonitorConfig := "eDP-1,1920x1080,0x0,1", g_mainMonitorName := "eDP-1",
          g_lockCommand := "loginctl lock-session", g_isDebug := false,
          g_isLidClosed := true, g_secondaryMonitorsCount := 0 }) =
      [.setDisplayDescriptor "eDP-1,1920x1080,0x0,1", .invokeAction "loginctl lock-session",
       .setDisplayPower "eDP-1" false]) :=
  ((updateState_shape
      { g_mainMonitorConfig := "eDP-1,1920x1080,0x0,1", g_mainMonitorName := "eDP-1",
        g_lockCommand := "loginctl lock-session", g_isDebug := false,
        g_isLidClosed := true, g_secondaryMonitorsCount := 0 }).2.2.2
    "loginctl lock-session" (by decide)).2.2

/-! ## A further secondary monitor -/

/-- C17, as stated, fails: with `eDP-1` configured, the lid closed and one secondary
monitor counted, the addition of a second one makes the counter 2 and runs the decision
procedure again, which issues the disabling of `eDP-1`. -/
theorem monitorAdded_second_counterexample :
    (monitorAdded
        { g_mainMonitorConfig := "eDP-1,1920x1080,0x0,1", g_mainMonitorName := "eDP-1",
          g_lockCommand := "", g_isDebug := false, g_isLidClosed := true,
          g_secondaryMonitorsCount := 1 } 2 "DP-2").1.g_secondaryMonitorsCount = 2 ∧
    commands (monitorAdded
        { g_mainMonitorConfig := "eDP-1,1920x1080,0x0,1", g_mainMonitorName := "eDP-1",
          g_lockCommand := "", g_isDebug := false, g_isLidClosed := true,
          g_secondaryMonitorsCount := 1 } 2 "DP-2").2 = [.disableDisplay "eDP-1"] ∧
    commands (monitorAdded
        { g_mainMonitorConfig := "eDP-1,1920x1080,0x0,1", g_mainMonitorName := "eDP-1",
          g_lockCommand := "", g_isDebug := false, g_isLidClosed := true,
          g_secondaryMonitorsCount := 1 } 2 "DP-2").2 ≠ [] := by
  decide

/-- C17, amended: with the counter already at 1 or more (and below 2147483647),
`monitorAdded` for a further secondary monitor adds one to the counter and does run the
decision procedure: its requests are those of `updateState` in the updated state, that
is the disabling with a primary monitor configured and the lid closed, descriptor then
power-on with the lid open, and none only when no primary monitor is configured. -/
theorem monitorAdded_further (s : State) (id : Int) (n : String)
    (hp : n ≠ s.g_mainMonitorName) (hf : n ≠ kFallbackMonitorName)
    (hlo : 1 ≤ s.g_secondaryMonitorsCount)
    (hhi : s.g_secondaryMonitorsCount < 2147483647) :
    (monitorAdded s id n).1 =
      { s with g_secondaryMonitorsCount := s.g_secondaryMonitorsCount + 1 } ∧
    commands (monitorAdded s id n).2 = commands (updateState (monitorAdded s id n).1) ∧
    (s.g_mainMonitorConfig ≠ "" → s.g_isLidClosed = true →
      commands (monitorAdded s id n).2 = [.disableDisplay s.g_mainMonitorName]) ∧
    (s.g_mainMonitorConfig ≠ "" → s.g_isLidClosed = false →
      commands (monitorAdded s id n).2 =
        [.setDisplayDescriptor s.g_mainMonitorConfig,
         .setDisplayPower s.g_mainMonitorName true]) ∧
    (s.g_mainMonitorConfig = "" → commands (monitorAdded s id n).2 = []) := by
  have h := monitorAdded_of_lt_max s id n hp hf (by omega) hhi
  have hcmd := h.2.1 (by omega)
  have hpos : s.g_secondaryMonitorsCount + 1 > 0 := by omega
  refine ⟨h.1, hcmd, ?_, ?_, ?_⟩
  · intro hcfg hlid
    rw [hcmd, h.1]
    simp [updateState, hcfg, hlid, hpos]
  · intro hcfg hlid
    rw [hcmd, h.1]
    simp [updateState, hcfg, hlid]
  · intro hcfg
    rw [hcmd, h.1]
    simp [updateState, hcfg]

theorem monitorAdded_further_witness :
    commands (monitorAdded
        { g_mainMonitorConfig := "eDP-1,1920x1080,0x0,1", g_mainMonitorName := "eDP-1",
          g_lockCommand := "loginctl lock-session", g_isDebug := false,
          g_isLidClosed := true, g_secondaryMonitorsCount := 1 } 5 "DP-3").2 =
      [.disableDisplay "eDP-1"] :=
  (monitorAdded_further _ 5 "DP-3" (by decide) (by decide) (by decide) (by decide)).2.2.1
    (by decide) rfl

/-! ## The stored descriptor -/

/-- C18, as stated, fails: a raw value with a leading and a trailing blank is stored with
both blanks, which is not its trimmed value. -/
theorem configReloaded_untrimmed_counterexample :
    (configReloaded State.initial (some " eDP-1,1920x1080,0x0,1 ") none none).1.g_mainMonitorConfig
      = " eDP-1,1920x1080,0x0,1 " ∧
    Spec.trimmed " eDP-1,1920x1080,0x0,1 " = "eDP-1,1920x1080,0x0,1" ∧
    (configReloaded State.initial (some " eDP-1,1920x1080,0x0,1 ") none none).1.g_mainMonitorConfig
      ≠ Spec.trimmed " eDP-1,1920x1080,0x0,1 " := by
  decide

/-- C18, amended: after a reload that supplies a primary-monitor string, the stored
descriptor is that string itself, unchanged; it is what `updateState` then passes with
the descriptor request, and it is the trimmed value exactly when the raw string already
is. -/
theorem configReloaded_descriptor_raw (s : State) (raw : String) (lock dbg : Option String) :
    (configReloaded s (some raw) lock dbg).1.g_mainMonitorConfig = raw ∧
    ((configReloaded s (some raw) lock dbg).1.g_mainMonitorConfig = Spec.trimmed raw ↔
      raw = Spec.trimmed raw) ∧
    (∀ d, Command.setDisplayDescriptor d ∈
        commands (updateState (configReloaded s (some raw) lock dbg).1) → d = raw) := by
  have hraw : (configReloaded s (some raw) lock dbg).1.g_mainMonitorConfig = raw := by
    rw [configReloaded_some_state]
  refine ⟨hraw, by rw [hraw], ?_⟩
  intro d hd
  rcases updateState_commands_cases (configReloaded s (some raw) lock dbg).1 with h | h | h | h <;>
    rw [h] at hd <;> simp [hraw] at hd <;> exact hd

theorem configReloaded_descriptor_raw_witness :
    (configReloaded State.initial (some "eDP-1, 1920x1080, 0x0, 1 ") none
        (some "true")).1.g_mainMonitorConfig = "eDP-1, 1920x1080, 0x0, 1 " :=
  (configReloaded_descriptor_raw State.initial "eDP-1, 1920x1080, 0x0, 1 " none
    (some "true")).1

/-! ## What each handler leaves alone -/

/-- C20: `configReloaded`, with or without a primary-monitor value, keeps the lid flag
and the counter; `lidClosed` and `lidOpen` change the lid flag only; `monitorAdded` and
`monitorRemoved` change the counter only; `updateState` yields effects and no state. -/
theorem handlers_frame (s : State) :
    (∀ m l d, (configReloaded s m l d).1.g_isLidClosed = s.g_isLidClosed ∧
      (configReloaded s m l d).1.g_secondaryMonitorsCount = s.g_secondaryMonitorsCount) ∧
    (lidClosed s).1 = { s with g_isLidClosed := true } ∧
    (lidOpen s).1 = { s with g_isLidClosed := false } ∧
    (∀ id n, (monitorAdded s id n).1 =
      { s with g_secondaryMonitorsCount := (monitorAdded s id n).1.g_secondaryMonitorsCount }) ∧
    (∀ id n, (monitorRemoved s id n).1 =
      { s with
        g_secondaryMonitorsCount := (monitorRemoved s id n).1.g_secondaryMonitorsCount }) ∧
    (lidClosed s).2 = logInfo (lidClosed s).1 "Lid closed" ++ updateState (lidClosed s).1 ∧
    (lidOpen s).2 = logInfo (lidOpen s).1 "Lid opened" ++ updateState (lidOpen s).1 := by
  refine ⟨?_, rfl, rfl, ?_, ?_, rfl, rfl⟩
  · intro m l d
    cases m with
    | none => exact ⟨rfl, rfl⟩
    | some raw => rw [configReloaded_some_state]; exact ⟨rfl, rfl⟩
  · intro id n
    rw [monitorAdded_state]
    split <;> rfl
  · intro id n
    rw [monitorRemoved_state]
    split <;> rfl

/-! ## The primary name along a trace -/

theorem handle_name_derived (s : State) (e : Event)
    (h : s.g_mainMonitorName = Spec.nameOfDescriptor s.g_mainMonitorConfig) :
    (e.handle s).g_mainMonitorName = Spec.nameOfDescriptor (e.handle s).g_mainMonitorConfig := by
  cases e with
  | lidClosed => exact h
  | lidOpen => exact h
  | monitorAdded id n =>
    simp only [Event.handle, monitorAdded_state]
    split <;> exact h
  | monitorRemoved id n =>
    simp only [Event.handle, monitorRemoved_state]
    split <;> exact h
  | configReloaded m l d =>
    cases m with
    | none => exact h
    | some raw =>
      simp only [Event.handle, configReloaded_some_state]
      exact rtrim_getline_eq_spec raw

theorem runEvents_name_derived (es : List Event) :
    ∀ s : State, s.g_mainMonitorName = Spec.nameOfDescriptor s.g_mainMonitorConfig →
      (runEvents s es).g_mainMonitorName =
        Spec.nameOfDescriptor (runEvents s es).g_mainMonitorConfig := by
  induction es with
  | nil => intro s h; exact h
  | cons e es ih =>
    intro s h
    exact ih (e.handle s) (handle_name_derived s e h)

/-- C19: in every state reached from the initial one by lid, monitor and reload events,
the primary name is the name the stored descriptor denotes; the lid and monitor handlers
and a reload without a primary-monitor value change neither field, and a reload with one
sets the descriptor and the name derived from it together. -/
theorem primary_name_derived :
    (∀ es : List Event,
      (runEvents State.initial es).g_mainMonitorName =
        Spec.nameOfDescriptor (runEvents State.initial es).g_mainMonitorConfig) ∧
    (∀ (s : State) (id : Int) (n : String) (l d : Option String),
      ((lidClosed s).1.g_mainMonitorConfig = s.g_mainMonitorConfig ∧
        (lidClosed s).1.g_mainMonitorName = s.g_mainMonitorName) ∧
      ((lidOpen s).1.g_mainMonitorConfig = s.g_mainMonitorConfig ∧
        (lidOpen s).1.g_mainMonitorName = s.g_mainMonitorName) ∧
      ((monitorAdded s id n).1.g_mainMonitorConfig = s.g_mainMonitorConfig ∧
        (monitorAdded s id n).1.g_mainMonitorName = s.g_mainMonitorName) ∧
      ((monitorRemoved s id n).1.g_mainMonitorConfig = s.g_mainMonitorConfig ∧
        (monitorRemoved s id n).1.g_mainMonitorName = s.g_mainMonitorName) ∧
      ((configReloaded s none l d).1.g_mainMonitorConfig = s.g_mainMonitorConfig ∧
        (configReloaded s none l d).1.g_mainMonitorName = s.g_mainMonitorName)) ∧
    (∀ (s : State) (raw : String) (l d : Option String),
      (configReloaded s (some raw) l d).1.g_mainMonitorConfig = raw ∧
      (configReloaded s (some raw) l d).1.g_mainMonitorName = Spec.nameOfDescriptor raw) := by
  refine ⟨?_, ?_, ?_⟩
  · intro es
    exact runEvents_name_derived es State.initial (by decide)
  · intro s id n l d
    refine ⟨⟨rfl, rfl⟩, ⟨rfl, rfl⟩, ?_, ?_, ⟨rfl, rfl⟩⟩
    · rw [monitorAdded_state]
      split <;> exact ⟨rfl, rfl⟩
    · rw [monitorRemoved_state]
      split <;> exact ⟨rfl, rfl⟩
  · intro s raw l d
    rw [configReloaded_some_state]
    exact ⟨rfl, rtrim_getline_eq_spec raw⟩

/-! ## The counter against the attached monitors -/

theorem countP_erase_add (p : String → Bool) (l : List String) (n : String) (h : n ∈ l) :
    List.countP p (l.erase n) + (if p n = true then 1 else 0) = List.countP p l := by
  induction l with
  | nil => simp at h
  | cons x xs ih =>
    by_cases hx : x = n
    · subst hx
      rw [List.erase_cons_head, List.countP_cons]
    · have hmem : n ∈ xs := by
        rcases List.mem_cons.mp h with h1 | h1
        · exact absurd h1.symm hx
        · exact h1
      have hbeq : ¬ (x == n) = true := by simpa using hx
      rw [List.erase_cons_tail hbeq, List.countP_cons, List.countP_cons, ← ih hmem]
      omega

theorem handle_count_attached (s : State) (a : List String) (e : Event)
    (hinv : s.g_secondaryMonitorsCount = secondaryAttached s a)
    (hlen : a.length < 2147483647)
    (hadm : e.admissible a = true) (hkeep : e.keepsPrimary s a = true) :
    (e.handle s).g_secondaryMonitorsCount = secondaryAttached (e.handle s) (e.attach a) := by
  have hle : secondaryAttached s a ≤ a.length := List.countP_le_length _
  cases e with
  | lidClosed => exact hinv
  | lidOpen => exact hinv
  | monitorAdded id n =>
    by_cases hn : n ≠ s.g_mainMonitorName ∧ n ≠ kFallbackMonitorName
    · simp only [Event.handle, Event.attach, monitorAdded_state, if_pos hn, secondaryAttached,
        List.countP_cons, hn, decide_True, if_true, ne_eq, not_false_eq_true, and_self]
      rw [wrapInt32_of_range _ (by omega) (by omega), hinv]
      simp [secondaryAttached]
    · simp only [Event.handle, Event.attach, monitorAdded_state, if_neg hn, secondaryAttached,
        List.countP_cons, hn, decide_False, Bool.false_eq_true, if_false, Nat.add_zero]
      exact hinv
  | monitorRemoved id n =>
    have hmem : n ∈ a := by simpa [Event.admissible] using hadm
    have hcount := countP_erase_add
      (fun x => decide (x ≠ s.g_mainMonitorName ∧ x ≠ kFallbackMonitorName)) a n hmem
    by_cases hn : n ≠ s.g_mainMonitorName ∧ n ≠ kFallbackMonitorName
    · simp only [hn, decide_True, if_true, ne_eq, not_false_eq_true, and_self] at hcount
      simp only [Event.handle, Event.attach, monitorRemoved_state, if_pos hn, secondaryAttached]
      have h1 : s.g_secondaryMonitorsCount =
          ((List.countP (fun x => decide (x ≠ s.g_mainMonitorName ∧ x ≠ kFallbackMonitorName))
            (a.erase n) : Nat) : Int) + 1 := by
        rw [hinv]
        simp only [secondaryAttached]
        rw [← hcount]
        push_cast
        rfl
      have h2 : List.countP
          (fun x => decide (x ≠ s.g_mainMonitorName ∧ x ≠ kFallbackMonitorName)) (a.erase n)
            < a.length := by
        have := hcount
        have hle2 : List.countP
            (fun x => decide (x ≠ s.g_mainMonitorName ∧ x ≠ kFallbackMonitorName)) a
              ≤ a.length := List.countP_le_length _
        omega
      rw [wrapInt32_of_range _ (by omega) (by omega), h1]
      omega
    · simp only [hn, decide_False, Bool.false_eq_true, if_false, Nat.add_zero] at hcount
      simp only [Event.handle, Event.attach, monitorRemoved_state, if_neg hn, secondaryAttached,
        hcount]
      exact hinv
  | configReloaded m l d =>
    cases m with
    | none => exact hinv
    | some raw =>
      simp only [Event.handle, Event.attach, configReloaded_some_state, secondaryAttached]
      rw [hinv]
      simp only [secondaryAttached, Nat.cast_inj]
      simp only [Event.keepsPrimary, Bool.or_eq_true, Bool.and_eq_true, decide_eq_true_eq]
        at hkeep
      rcases hkeep with hk | ⟨hold, hnew⟩
      · rw [hk]
      · apply List.countP_congr
        intro x hx
        have h1 : x ≠ s.g_mainMonitorName := fun h => hold (h ▸ hx)
        have h2 : x ≠ (⟨rtrim (getline raw.data ',')⟩ : String) := fun h => hnew (h ▸ hx)
        simp [h1, h2]

theorem attach_length_le (a : List String) (e : Event) :
    (e.attach a).length ≤ a.length + 1 := by
  cases e with
  | monitorAdded id n => simp [Event.attach]
  | monitorRemoved id n =>
    have := List.length_erase_le n a
    simp only [Event.attach]
    omega
  | lidClosed => simp [Event.attach]
  | lidOpen => simp [Event.attach]
  | configReloaded m l d => simp [Event.attach]

theorem configsAfter_count_attached (es : List Event) :
    ∀ (s : State) (a : List String),
      s.g_secondaryMonitorsCount = secondaryAttached s a →
      a.length + es.length < 2147483648 →
      traceAdmissible a es = true → traceKeepsPrimary s a es = true →
      ∀ c ∈ configsAfter s a es, c.1.g_secondaryMonitorsCount = secondaryAttached c.1 c.2 := by
  induction es with
  | nil => intro s a _ _ _ _ c hc; simp [configsAfter] at hc
  | cons e es ih =>
    intro s a hinv hlen hadm hkeep c hc
    simp only [List.length_cons] at hlen
    simp only [traceAdmissible, Bool.and_eq_true] at hadm
    simp only [traceKeepsPrimary, Bool.and_eq_true] at hkeep
    have hstep := handle_count_attached s a e hinv (by omega) hadm.1 hkeep.1
    have hlen2 := attach_length_le a e
    simp only [configsAfter, List.mem_cons] at hc
    rcases hc with rfl | hc
    · exact hstep
    · exact ih (e.handle s) (e.attach a) hstep (by omega) hadm.2 hkeep.2 c hc

/-- C15, as stated, fails: after a reload naming `eDP-1`, the attachment of `HDMI-A-1`
and a reload naming `HDMI-A-1`, the counter is 1 while no attached monitor differs from
the primary one. -/
theorem count_after_reload_counterexample :
    traceAdmissible []
      [.configReloaded (some "eDP-1,1920x1080,0x0,1") none none,
       .monitorAdded 1 "HDMI-A-1",
       .configReloaded (some "HDMI-A-1,1920x1080,0x0,1") none none] = true ∧
    (configsAfter State.initial []
      [.configReloaded (some "eDP-1,1920x1080,0x0,1") none none,
       .monitorAdded 1 "HDMI-A-1",
       .configReloaded (some "HDMI-A-1,1920x1080,0x0,1") none none]).map
        (fun c => (c.1.g_mainMonitorName, c.2, c.1.g_secondaryMonitorsCount,
          secondaryAttached c.1 c.2)) =
      [("eDP-1", [], 0, 0), ("eDP-1", ["HDMI-A-1"], 1, 1),
       ("HDMI-A-1", ["HDMI-A-1"], 1, 0)] ∧
    ¬ ∀ c ∈ configsAfter State.initial []
        [.configReloaded (some "eDP-1,1920x1080,0x0,1") none none,
         .monitorAdded 1 "HDMI-A-1",
         .configReloaded (some "HDMI-A-1,1920x1080,0x0,1") none none],
      c.1.g_secondaryMonitorsCount = secondaryAttached c.1 c.2 := by
  refine ⟨by decide, by decide, ?_⟩
  intro h
  have h1 := h (runEvents State.initial
      [.configReloaded (some "eDP-1,1920x1080,0x0,1") none none,
       .monitorAdded 1 "HDMI-A-1",
       .configReloaded (some "HDMI-A-1,1920x1080,0x0,1") none none], ["HDMI-A-1"])
    (by decide)
  revert h1
  decide

/-- C15, amended: from the initial state with nothing attached, along any trace of fewer
than 2^31 events in which monitors are added only when not attached and removed only
when attached, and in which every reload with a primary-monitor value either keeps the
primary name or happens while neither the old nor the new primary name is attached, the
counter after each event is the number of attached monitors that are neither the
current primary one nor the fallback. -/
theorem count_matches_attached (es : List Event)
    (hlen : es.length < 2147483648)
    (hadm : traceAdmissible [] es = true)
    (hkeep : traceKeepsPrimary State.initial [] es = true) :
    ∀ c ∈ configsAfter State.initial [] es,
      c.1.g_secondaryMonitorsCount = secondaryAttached c.1 c.2 :=
  configsAfter_count_attached es State.initial [] rfl (by simpa using hlen) hadm hkeep

theorem count_matches_attached_witness :
    (runEvents State.initial
        [.configReloaded (some "eDP-1,1920x1080,0x0,1") none none,
         .monitorAdded 0 "eDP-1", .monitorAdded 1 "HDMI-A-1", .lidClosed,
         .monitorAdded 2 "FALLBACK"]).g_secondaryMonitorsCount =
      secondaryAttached
        (runEvents State.initial
          [.configReloaded (some "eDP-1,1920x1080,0x0,1") none none,
           .monitorAdded 0 "eDP-1", .monitorAdded 1 "HDMI-A-1", .lidClosed,
           .monitorAdded 2 "FALLBACK"])
        ["FALLBACK", "HDMI-A-1", "eDP-1"] :=
  count_matches_attached
    [.configReloaded (some "eDP-1,1920x1080,0x0,1") none none,
     .monitorAdded 0 "eDP-1", .monitorAdded 1 "HDMI-A-1", .lidClosed,
     .monitorAdded 2 "FALLBACK", .monitorRemoved 1 "HDMI-A-1"]
    (by decide) (by decide) (by decide)
    (runEvents State.initial
        [.configReloaded (some "eDP-1,1920x1080,0x0,1") none none,
         .monitorAdded 0 "eDP-1", .monitorAdded 1 "HDMI-A-1", .lidClosed,
         .monitorAdded 2 "FALLBACK"], ["FALLBACK", "HDMI-A-1", "eDP-1"])
    (by decide)

end Hyprlid
